import Mathlib

/-!
Verification of the ESP32 PC hardware monitor firmware core (`src/main.cpp`):
the telemetry line decoder, the transport line buffering, the connection
liveness check, and the power-saving state machine.

Modelling conventions:
* C strings are `List Char`; `strstrSuffix s pat` models `strstr(s, pat)`
  returning the suffix of `s` after the first occurrence of `pat`
  (the C code always advances the returned pointer past the key).
* C `float`/`double` values are modelled as `Rat`.  `atof`/`atoi` are
  modelled for fixed-point decimal notation (optional whitespace, optional
  sign, digits, optional fraction); the telemetry protocol never uses
  exponent, hexadecimal, or inf/nan notation.  On no conversion they
  return 0, as in C.
* `unsigned long` millisecond timestamps are `Nat` values below `2^32`;
  `subu32` models 32-bit unsigned subtraction `a - b`.
-/

/-- C character class `isdigit`. -/
def cIsDigit (c : Char) : Bool := 48 ≤ c.toNat && c.toNat ≤ 57

/-- C character class `isspace` (space, tab, newline, vertical tab, form feed, carriage return). -/
def cIsSpace (c : Char) : Bool :=
  c = ' ' || c = '\t' || c = '\n' || c = '\x0b' || c = '\x0c' || c = '\r'

/-- Value of a list of decimal digit characters. -/
def digitsToNat (ds : List Char) : Nat :=
  ds.foldl (fun acc c => acc * 10 + (c.toNat - 48)) 0

/-- `leadsWith pat s` is true when `pat` is an initial segment of `s`. -/
def leadsWith : List Char → List Char → Bool
  | [], _ => true
  | _ :: _, [] => false
  | p :: ps, c :: cs => p = c && leadsWith ps cs

/-- Model of `strstr(s, pat)` followed by advancing past the pattern:
returns the suffix of `s` after the first occurrence of `pat`, or `none`
when `pat` does not occur in `s`. -/
def strstrSuffix : List Char → List Char → Option (List Char)
  | [], pat => if leadsWith pat [] then some [] else none
  | s@(_ :: rest), pat =>
      if leadsWith pat s then some (s.drop pat.length) else strstrSuffix rest pat

/-- One `%f`-style conversion (also the body of `atof`/`strtod` restricted to
fixed-point decimals): skip whitespace, optional sign, integer digits,
optional `.` and fraction digits.  Fails (`none`) when no digit is consumed. -/
def scanFloat (s : List Char) : Option (Rat × List Char) :=
  let s1 := s.dropWhile cIsSpace
  let sgn : Rat × List Char :=
    match s1 with
    | '-' :: rest => (-1, rest)
    | '+' :: rest => (1, rest)
    | _ => (1, s1)
  let s2 := sgn.2
  let ip := s2.takeWhile cIsDigit
  let s3 := s2.dropWhile cIsDigit
  match s3 with
  | '.' :: s4 =>
      let fp := s4.takeWhile cIsDigit
      let s5 := s4.dropWhile cIsDigit
      if ip.isEmpty && fp.isEmpty then none
      else some (sgn.1 * ((digitsToNat ip : Rat) + (digitsToNat fp : Rat) / ((10 : Rat) ^ fp.length)), s5)
  | _ =>
      if ip.isEmpty then none
      else some (sgn.1 * (digitsToNat ip : Rat), s3)

/-- Model of C `atof`: value of the leading decimal number, `0` when none. -/
def atof (s : List Char) : Rat :=
  match scanFloat s with
  | none => 0
  | some (v, _) => v

/-- Model of C `atoi`: leading integer value, `0` when none. -/
def atoiInt (s : List Char) : Int :=
  let s1 := s.dropWhile cIsSpace
  let sgn : Bool × List Char :=
    match s1 with
    | '-' :: rest => (true, rest)
    | '+' :: rest => (false, rest)
    | _ => (false, s1)
  let n : Int := digitsToNat (sgn.2.takeWhile cIsDigit)
  if sgn.1 then -n else n

/-- Model of `sscanf(s, "%f<sep>%f", &a, &b)`: first float, a literal
separator character, second float.  Returns which of the two conversions
succeeded (later conversions are skipped once one fails, as in C). -/
def sscanfTwo (sep : Char) (s : List Char) : Option Rat × Option Rat :=
  match scanFloat s with
  | none => (none, none)
  | some (a, rest) =>
      match rest with
      | c :: rest2 =>
          if c = sep then
            match scanFloat rest2 with
            | none => (some a, none)
            | some (b, _) => (some a, some b)
          else (some a, none)
      | [] => (some a, none)

/-- The `SystemMetrics` struct of `main.cpp` lines 19–43. -/
structure SystemMetrics where
  cpu_usage : Rat
  ram_usage : Rat
  temperature : Rat
  cpu_freq_ghz : Rat
  gpu_usage : Rat
  ram_used_gb : Rat
  ram_total_gb : Rat
  fan_rpm : Int
  net_download_mbps : Rat
  net_upload_mbps : Rat
  battery_percent : Int
  power_watts : Rat
  last_update : Nat
  connected : Bool
  power_save_mode : Bool
  disconnect_time : Nat
  deriving Repr, DecidableEq

/-- The global initializer of `metrics` (`main.cpp` lines 45–53). -/
def initMetrics : SystemMetrics :=
  { cpu_usage := 0, ram_usage := 0, temperature := 0
    cpu_freq_ghz := 0, gpu_usage := 0
    ram_used_gb := 0, ram_total_gb := 0
    fan_rpm := 0, net_download_mbps := 0, net_upload_mbps := 0
    battery_percent := -1, power_watts := 0
    last_update := 0, connected := false
    power_save_mode := false, disconnect_time := 0 }

def SERIAL_BUFFER_SIZE : Nat := 128
def DATA_TIMEOUT_MS : Nat := 5000
def POWER_SAVE_DELAY_MS : Nat := 10000
def POWER_SAVE_BACKLIGHT : Nat := 0
def NORMAL_BACKLIGHT : Nat := 5

def keyCHK : List Char := (",CHK:").data
def keyCPU : List Char := ("CPU:").data
def keyRAM : List Char := ("RAM:").data
def keyTEMP : List Char := ("TEMP:").data
def keyFREQ : List Char := ("FREQ:").data
def keyGPU : List Char := ("GPU:").data
def keyRAMGB : List Char := ("RAMGB:").data
def keyFAN : List Char := ("FAN:").data
def keyNET : List Char := ("NET:").data
def keyBAT : List Char := ("BAT:").data
def keyPOWER : List Char := ("POWER:").data

/-- `validateChecksum` (`main.cpp` lines 249–266): looks for `",CHK:"`;
the numeric value after it is parsed into `received_checksum` but never
used — any message containing the token is accepted. -/
def validateChecksum (message : List Char) : Bool :=
  match strstrSuffix message keyCHK with
  | none => false
  | some _ => true

/-- Decode rejection reasons (spec §7); the C code reports them via
`Serial.println` and a `false` return. -/
inductive DecodeError where
  | MissingChecksum
  | MissingField (key : String)
  | OutOfRange
  deriving Repr, DecidableEq

/-- The optional-field reset block of `parseMessage` (`main.cpp` lines 153–162). -/
def resetOptionals (m : SystemMetrics) : SystemMetrics :=
  { m with cpu_freq_ghz := 0, gpu_usage := 0, ram_used_gb := 0, ram_total_gb := 0
           fan_rpm := 0, net_download_mbps := 0, net_upload_mbps := 0
           battery_percent := -1, power_watts := 0 }

/-- `FREQ:` optional field (`main.cpp` lines 197–200). -/
def applyFREQ (message : List Char) (m : SystemMetrics) : SystemMetrics :=
  match strstrSuffix message keyFREQ with
  | some r => { m with cpu_freq_ghz := atof r }
  | none => m

/-- `GPU:` optional field (`main.cpp` lines 203–206). -/
def applyGPU (message : List Char) (m : SystemMetrics) : SystemMetrics :=
  match strstrSuffix message keyGPU with
  | some r => { m with gpu_usage := atof r }
  | none => m

/-- `RAMGB:` optional field, `sscanf("%f/%f")` (`main.cpp` lines 209–212). -/
def applyRAMGB (message : List Char) (m : SystemMetrics) : SystemMetrics :=
  match strstrSuffix message keyRAMGB with
  | some r =>
      match sscanfTwo '/' r with
      | (some a, some b) => { m with ram_used_gb := a, ram_total_gb := b }
      | (some a, none) => { m with ram_used_gb := a }
      | (none, _) => m
  | none => m

/-- `FAN:` optional field (`main.cpp` lines 215–218). -/
def applyFAN (message : List Char) (m : SystemMetrics) : SystemMetrics :=
  match strstrSuffix message keyFAN with
  | some r => { m with fan_rpm := atoiInt r }
  | none => m

/-- `NET:` optional field, `sscanf("%f,%f")` (`main.cpp` lines 221–224). -/
def applyNET (message : List Char) (m : SystemMetrics) : SystemMetrics :=
  match strstrSuffix message keyNET with
  | some r =>
      match sscanfTwo ',' r with
      | (some a, some b) => { m with net_download_mbps := a, net_upload_mbps := b }
      | (some a, none) => { m with net_download_mbps := a }
      | (none, _) => m
  | none => m

/-- `BAT:` optional field (`main.cpp` lines 227–230). -/
def applyBAT (message : List Char) (m : SystemMetrics) : SystemMetrics :=
  match strstrSuffix message keyBAT with
  | some r => { m with battery_percent := atoiInt r }
  | none => m

/-- `POWER:` optional field (`main.cpp` lines 233–236). -/
def applyPOWER (message : List Char) (m : SystemMetrics) : SystemMetrics :=
  match strstrSuffix message keyPOWER with
  | some r => { m with power_watts := atof r }
  | none => m

/-- The optional-field section of `parseMessage` (`main.cpp` lines 194–236),
applied in source order. -/
def applyOptionals (m : SystemMetrics) (message : List Char) : SystemMetrics :=
  applyPOWER message (applyBAT message (applyNET message (applyFAN message
    (applyRAMGB message (applyGPU message (applyFREQ message m))))))

/-- `parseMessage` (`main.cpp` lines 144–247).  The C function mutates the
global `metrics` in place and returns `bool`; here it takes the previous
record and returns the (possibly partially updated) record together with
the rejection reason, `none` meaning success (`return true`). -/
def parseMessage (metrics : SystemMetrics) (message : List Char) :
    Option DecodeError × SystemMetrics :=
  if validateChecksum message = false then (some DecodeError.MissingChecksum, metrics)
  else
    let m0 := resetOptionals metrics
    match strstrSuffix message keyCPU with
    | none => (some (DecodeError.MissingField "CPU"), m0)
    | some restCPU =>
        let m1 := { m0 with cpu_usage := atof restCPU }
        match strstrSuffix message keyRAM with
        | none => (some (DecodeError.MissingField "RAM"), m1)
        | some restRAM =>
            let m2 := { m1 with ram_usage := atof restRAM }
            match strstrSuffix message keyTEMP with
            | none => (some (DecodeError.MissingField "TEMP"), m2)
            | some restTEMP =>
                let m3 := { m2 with temperature := atof restTEMP }
                let m4 := applyOptionals m3 message
                if m4.cpu_usage < 0 ∨ m4.cpu_usage > 100 ∨
                   m4.ram_usage < 0 ∨ m4.ram_usage > 100 ∨
                   m4.temperature < 0 ∨ m4.temperature > 150 then
                  (some DecodeError.OutOfRange, m4)
                else (none, m4)

/-- State of the Transport Reader: the accumulated bytes of the current
line (`serialBuffer[0..bufferIndex)`, `main.cpp` lines 56–57). -/
structure TransportState where
  buffer : List Char
  deriving Repr, DecidableEq

/-- One iteration of the `while (Serial.available())` body of
`processSerialData` (`main.cpp` lines 110–142) on one incoming byte.
Returns the new buffer state, the complete line emitted to the decoder
(if any), and whether a buffer overflow was reported. -/
def procByte (st : TransportState) (c : Char) :
    TransportState × Option (List Char) × Bool :=
  if c = '\n' ∨ c = '\r' then
    if st.buffer.length > 0 then (⟨[]⟩, some st.buffer, false)
    else (st, none, false)
  else if st.buffer.length < SERIAL_BUFFER_SIZE - 1 then
    (⟨st.buffer ++ [c]⟩, none, false)
  else
    (⟨[]⟩, none, true)

/-- `processSerialData` over a whole incoming byte sequence: threads the
buffer state and collects the emitted lines and the number of reported
overflows. -/
def processSerial (st : TransportState) (input : List Char) :
    TransportState × List (List Char) × Nat :=
  match input with
  | [] => (st, [], 0)
  | c :: rest =>
      let step := procByte st c
      let tail := processSerial step.1 rest
      (tail.1,
       (match step.2.1 with | some l => [l] | none => []) ++ tail.2.1,
       (if step.2.2 then 1 else 0) + tail.2.2)

def U32 : Nat := 2 ^ 32

/-- 32-bit unsigned subtraction `a - b`, as computed on `unsigned long`
millisecond timestamps (`millis() - metrics.last_update` etc.). -/
def subu32 (a b : Nat) : Nat := (a % U32 + (U32 - b % U32)) % U32

/-- `checkConnectionStatus` (`main.cpp` lines 268–278); `now` models the
value of `millis()` during this call. -/
def checkConnectionStatus (now : Nat) (m : SystemMetrics) : SystemMetrics :=
  if m.connected then
    if subu32 now m.last_update > DATA_TIMEOUT_MS then
      { m with connected := false, disconnect_time := now }
    else m
  else m

/-- Side-effecting requests issued to the display/clock collaborators. -/
inductive Effect where
  | setBacklight (level : Nat)
  | setCpuFreq (mhz : Nat)
  | display
  deriving Repr, DecidableEq

/-- `enterPowerSaveMode` (`main.cpp` lines 280–298). -/
def enterPowerSaveMode (m : SystemMetrics) : SystemMetrics × List Effect :=
  if m.power_save_mode then (m, [])
  else ({ m with power_save_mode := true },
        [Effect.setBacklight POWER_SAVE_BACKLIGHT, Effect.setCpuFreq 80])

/-- `exitPowerSaveMode` (`main.cpp` lines 300–318). -/
def exitPowerSaveMode (m : SystemMetrics) : SystemMetrics × List Effect :=
  if m.power_save_mode then
    ({ m with power_save_mode := false },
     [Effect.setBacklight NORMAL_BACKLIGHT, Effect.setCpuFreq 160])
  else (m, [])

/-- `managePowerSaving` (`main.cpp` lines 320–334). -/
def managePowerSaving (now : Nat) (m : SystemMetrics) : SystemMetrics × List Effect :=
  if m.connected = false then
    if subu32 now m.disconnect_time > POWER_SAVE_DELAY_MS ∧ m.power_save_mode = false then
      enterPowerSaveMode m
    else (m, [])
  else
    if m.power_save_mode then exitPowerSaveMode m else (m, [])

/-- `updateDisplay` render throttling (`main.cpp` lines 336–353): given the
static `lastUpdate` timestamp, returns its new value and the display
propagation (if the 500 ms cadence has elapsed). -/
def updateDisplay (now lastRender : Nat) : Nat × List Effect :=
  if subu32 now lastRender < 500 then (lastRender, [])
  else (now, [Effect.display])

/-- The caller side of a complete line in `processSerialData`
(`main.cpp` lines 120–129): on a successful parse, stamp
`last_update = millis()` and set `connected = true`. -/
def onSerialLine (now : Nat) (m : SystemMetrics) (line : List Char) : SystemMetrics :=
  let res := parseMessage m line
  match res.1 with
  | none => { res.2 with last_update := now, connected := true }
  | some _ => res.2

/-- State carried across iterations of `loop()`: the metrics record and
the render scheduler's `static` timestamp. -/
structure LoopState where
  metrics : SystemMetrics
  lastRender : Nat
  deriving Repr, DecidableEq

/-- One iteration of `loop()` (`main.cpp` lines 84–102), for an iteration
in which at most one complete telemetry line arrived; `now` models
`millis()` during the iteration.  The returned action list preserves the
order in which side-effecting requests are issued. -/
def loopStep (now : Nat) (incoming : Option (List Char)) (s : LoopState) :
    LoopState × List Effect :=
  let m1 := match incoming with
    | none => s.metrics
    | some l => onSerialLine now s.metrics l
  let m2 := checkConnectionStatus now m1
  let pw := managePowerSaving now m2
  let disp := updateDisplay now s.lastRender
  (⟨pw.1, disp.1⟩, pw.2 ++ disp.2)

/-- Value of a float-valued optional field after the optional section:
parsed when the key occurs, otherwise the given default. -/
def optMatchF (message key : List Char) (d : Rat) : Rat :=
  match strstrSuffix message key with
  | some r => atof r
  | none => d

/-- Value of an int-valued optional field after the optional section. -/
def optMatchI (message key : List Char) (d : Int) : Int :=
  match strstrSuffix message key with
  | some r => atoiInt r
  | none => d

/-- First component of a two-float optional field (`RAMGB`, `NET`). -/
def optPairFst (message key : List Char) (sep : Char) (d : Rat) : Rat :=
  match strstrSuffix message key with
  | some r =>
      match (sscanfTwo sep r).1 with
      | some a => a
      | none => d
  | none => d

/-- Second component of a two-float optional field (`RAMGB`, `NET`). -/
def optPairSnd (message key : List Char) (sep : Char) (d : Rat) : Rat :=
  match strstrSuffix message key with
  | some r =>
      match sscanfTwo sep r with
      | (some _, some b) => b
      | _ => d
  | none => d

/-- The record produced by a decode attempt that got past the three
required-field presence checks. -/
def decodedRecord (m : SystemMetrics) (message restCPU restRAM restTEMP : List Char) :
    SystemMetrics :=
  applyOptionals
    { resetOptionals m with
        cpu_usage := atof restCPU, ram_usage := atof restRAM, temperature := atof restTEMP }
    message

/-- The accept/reject verdict of `parseMessage`, computed from the checksum
token and the three required fields alone; used to show the verdict is
independent of the optional fields and of the previous record. -/
def decodeVerdict (message : List Char) : Option DecodeError :=
  if validateChecksum message = false then some DecodeError.MissingChecksum
  else
    match strstrSuffix message keyCPU with
    | none => some (DecodeError.MissingField "CPU")
    | some restCPU =>
        match strstrSuffix message keyRAM with
        | none => some (DecodeError.MissingField "RAM")
        | some restRAM =>
            match strstrSuffix message keyTEMP with
            | none => some (DecodeError.MissingField "TEMP")
            | some restTEMP =>
                if atof restCPU < 0 ∨ atof restCPU > 100 ∨
                   atof restRAM < 0 ∨ atof restRAM > 100 ∨
                   atof restTEMP < 0 ∨ atof restTEMP > 150 then
                  some DecodeError.OutOfRange
                else none

/-! ### Concrete inputs used in witnesses and counterexamples -/

/-- Spec §8 scenario message with a `FAN` field. -/
def msgScenario1 : List Char := ("CPU:45.2,RAM:67.8,TEMP:58.5,FAN:1500,CHK:171").data

/-- Spec §8 scenario message with only required fields. -/
def msgScenario0 : List Char := ("CPU:45.2,RAM:67.8,TEMP:58.5,CHK:171").data

/-- A line missing the required `RAM` field. -/
def msgMissingRAM : List Char := ("CPU:50.0,TEMP:60.0,CHK:110").data

/-- A line missing the checksum token. -/
def msgNoChk : List Char := ("CPU:1,RAM:1,TEMP:1").data

/-- A line whose `BAT` value is not numeric. -/
def msgBatBad : List Char := ("CPU:1,RAM:2,TEMP:3,BAT:abc,CHK:0").data

/-- A line whose required values are all non-numeric. -/
def msgNonNumeric : List Char := ("CPU:abc,RAM:abc,TEMP:abc,CHK:9").data

/-- A line whose only `CHK:` occurrence is at the very start. -/
def msgChkAtStart : List Char := ("CHK:171,CPU:1,RAM:1,TEMP:1").data

/-- A line with `,CHK:` in the middle rather than trailing. -/
def msgChkMiddle : List Char := ("CPU:1,CHK:5,RAM:1,TEMP:1").data

/-- A small valid telemetry line. -/
def msgSimple : List Char := ("CPU:1,RAM:2,TEMP:3,CHK:6").data

/-- The line part (before the terminator) of an over-long transmission:
128 bytes of junk followed by a well-formed telemetry suffix. -/
def overLongTail : List Char := ("CPU:1,RAM:1,TEMP:1,CHK:1").data

def overLongLine : List Char := List.replicate 127 'A' ++ ('B' :: overLongTail)

def overLongInput : List Char := overLongLine ++ [('\n')]


unseal Rat.add Rat.mul Rat.inv Rat.sub Rat.ofScientific

set_option maxRecDepth 100000

/-! ### Helper lemmas -/

theorem subu32_eq_sub {a b : Nat} (hba : b ≤ a) (ha : a < U32) :
    subu32 a b = a - b := by
  unfold subu32 U32 at *
  omega

theorem leadsWith_cons_elim {p : Char} {ps s : List Char}
    (h : leadsWith (p :: ps) s = true) :
    ∃ t, s = p :: t ∧ leadsWith ps t = true := by
  cases s with
  | nil => simp [leadsWith] at h
  | cons c cs =>
      simp only [leadsWith, Bool.and_eq_true, decide_eq_true_eq] at h
      exact ⟨cs, by rw [h.1], h.2⟩

theorem leadsWith_append (p t : List Char) : leadsWith p (p ++ t) = true := by
  induction p with
  | nil => rfl
  | cons c cs ih => simp [leadsWith, ih]

theorem strstrSuffix_eq_none_iff (s pat : List Char) :
    strstrSuffix s pat = none ↔ ∀ i, leadsWith pat (s.drop i) = false := by
  induction s with
  | nil =>
      constructor
      · intro h i
        simp only [strstrSuffix] at h
        cases hl : leadsWith pat [] with
        | false => simp [List.drop_nil, hl]
        | true => simp [hl] at h
      · intro h
        simp only [strstrSuffix]
        have := h 0
        simp only [List.drop_nil] at this
        simp [this]
  | cons c cs ih =>
      constructor
      · intro h i
        simp only [strstrSuffix] at h
        cases hl : leadsWith pat (c :: cs) with
        | true => simp [hl] at h
        | false =>
            rw [hl] at h
            simp only [if_false, Bool.false_eq_true] at h
            cases i with
            | zero => simpa using hl
            | succ j =>
                have := (ih.mp h) j
                simpa [List.drop_succ_cons] using this
      · intro h
        simp only [strstrSuffix]
        have h0 := h 0
        simp only [List.drop_zero] at h0
        rw [h0]
        simp only [if_false, Bool.false_eq_true]
        exact ih.mpr (fun i => by simpa [List.drop_succ_cons] using h (i + 1))

theorem strstrSuffix_isSome_of_leadsWith {s pat : List Char} {i : Nat}
    (h : leadsWith pat (s.drop i) = true) :
    strstrSuffix s pat ≠ none := by
  intro hn
  have := (strstrSuffix_eq_none_iff s pat).mp hn i
  rw [this] at h
  exact Bool.false_ne_true h

theorem applyFREQ_spec (message : List Char) (m : SystemMetrics) :
    applyFREQ message m = { m with cpu_freq_ghz := optMatchF message keyFREQ m.cpu_freq_ghz } := by
  unfold applyFREQ optMatchF
  split <;> rfl

theorem applyGPU_spec (message : List Char) (m : SystemMetrics) :
    applyGPU message m = { m with gpu_usage := optMatchF message keyGPU m.gpu_usage } := by
  unfold applyGPU optMatchF
  split <;> rfl

theorem applyRAMGB_spec (message : List Char) (m : SystemMetrics) :
    applyRAMGB message m =
      { m with ram_used_gb := optPairFst message keyRAMGB '/' m.ram_used_gb
               ram_total_gb := optPairSnd message keyRAMGB '/' m.ram_total_gb } := by
  unfold applyRAMGB optPairFst optPairSnd
  split
  · next r heq =>
      split
      · next a b heq2 => rw [heq2]
      · next a heq2 => rw [heq2]
      · next o heq2 =>
          rcases o with _ | b
          · rw [heq2]
          · rw [heq2]
  · rfl

theorem applyFAN_spec (message : List Char) (m : SystemMetrics) :
    applyFAN message m = { m with fan_rpm := optMatchI message keyFAN m.fan_rpm } := by
  unfold applyFAN optMatchI
  split <;> rfl

theorem applyNET_spec (message : List Char) (m : SystemMetrics) :
    applyNET message m =
      { m with net_download_mbps := optPairFst message keyNET ',' m.net_download_mbps
               net_upload_mbps := optPairSnd message keyNET ',' m.net_upload_mbps } := by
  unfold applyNET optPairFst optPairSnd
  split
  · next r heq =>
      split
      · next a b heq2 => rw [heq2]
      · next a heq2 => rw [heq2]
      · next o heq2 =>
          rcases o with _ | b
          · rw [heq2]
          · rw [heq2]
  · rfl

theorem applyBAT_spec (message : List Char) (m : SystemMetrics) :
    applyBAT message m = { m with battery_percent := optMatchI message keyBAT m.battery_percent } := by
  unfold applyBAT optMatchI
  split <;> rfl

theorem applyPOWER_spec (message : List Char) (m : SystemMetrics) :
    applyPOWER message m = { m with power_watts := optMatchF message keyPOWER m.power_watts } := by
  unfold applyPOWER optMatchF
  split <;> rfl

theorem applyOptionals_spec (m : SystemMetrics) (message : List Char) :
    applyOptionals m message =
      { m with cpu_freq_ghz := optMatchF message keyFREQ m.cpu_freq_ghz
               gpu_usage := optMatchF message keyGPU m.gpu_usage
               ram_used_gb := optPairFst message keyRAMGB '/' m.ram_used_gb
               ram_total_gb := optPairSnd message keyRAMGB '/' m.ram_total_gb
               fan_rpm := optMatchI message keyFAN m.fan_rpm
               net_download_mbps := optPairFst message keyNET ',' m.net_download_mbps
               net_upload_mbps := optPairSnd message keyNET ',' m.net_upload_mbps
               battery_percent := optMatchI message keyBAT m.battery_percent
               power_watts := optMatchF message keyPOWER m.power_watts } := by
  unfold applyOptionals
  rw [applyFREQ_spec, applyGPU_spec, applyRAMGB_spec, applyFAN_spec, applyNET_spec,
      applyBAT_spec, applyPOWER_spec]

theorem parseMessage_success_shape (m : SystemMetrics) (message restCPU restRAM restTEMP : List Char)
    (hchk : validateChecksum message = true)
    (hc : strstrSuffix message keyCPU = some restCPU)
    (hr : strstrSuffix message keyRAM = some restRAM)
    (ht : strstrSuffix message keyTEMP = some restTEMP) :
    parseMessage m message =
      (if atof restCPU < 0 ∨ atof restCPU > 100 ∨
          atof restRAM < 0 ∨ atof restRAM > 100 ∨
          atof restTEMP < 0 ∨ atof restTEMP > 150 then
        (some DecodeError.OutOfRange, decodedRecord m message restCPU restRAM restTEMP)
      else (none, decodedRecord m message restCPU restRAM restTEMP)) := by
  unfold parseMessage
  rw [hchk]
  simp only [Bool.true_eq_false, if_false, hc, hr, ht]
  unfold decodedRecord
  have hcpu : (applyOptionals
      { resetOptionals m with
          cpu_usage := atof restCPU, ram_usage := atof restRAM, temperature := atof restTEMP }
      message).cpu_usage = atof restCPU := by
    rw [applyOptionals_spec]
  have hram : (applyOptionals
      { resetOptionals m with
          cpu_usage := atof restCPU, ram_usage := atof restRAM, temperature := atof restTEMP }
      message).ram_usage = atof restRAM := by
    rw [applyOptionals_spec]
  have htemp : (applyOptionals
      { resetOptionals m with
          cpu_usage := atof restCPU, ram_usage := atof restRAM, temperature := atof restTEMP }
      message).temperature = atof restTEMP := by
    rw [applyOptionals_spec]
  rw [hcpu, hram, htemp]

theorem parseMessage_fst_eq_verdict (m : SystemMetrics) (message : List Char) :
    (parseMessage m message).1 = decodeVerdict message := by
  unfold decodeVerdict
  cases hchk : validateChecksum message with
  | false =>
      unfold parseMessage
      rw [hchk]
      simp
  | true =>
      simp only [Bool.true_eq_false, if_false]
      cases hc : strstrSuffix message keyCPU with
      | none =>
          unfold parseMessage
          rw [hchk, hc]
          simp
      | some restCPU =>
          cases hr : strstrSuffix message keyRAM with
          | none =>
              unfold parseMessage
              rw [hchk, hc, hr]
              simp
          | some restRAM =>
              cases ht : strstrSuffix message keyTEMP with
              | none =>
                  unfold parseMessage
                  rw [hchk, hc, hr, ht]
                  simp
              | some restTEMP =>
                  rw [parseMessage_success_shape m message restCPU restRAM restTEMP hchk hc hr ht]
                  split
                  · next h => exact (if_pos h).symm
                  · next h => exact (if_neg h).symm

theorem subu32_self (a : Nat) : subu32 a a = 0 := by
  unfold subu32 U32
  omega

theorem subu32_zero {a : Nat} (ha : a < U32) : subu32 a 0 = a := by
  unfold subu32 U32 at *
  omega

theorem strstrSuffix_some_exists {s pat r : List Char}
    (h : strstrSuffix s pat = some r) :
    ∃ i, leadsWith pat (s.drop i) = true := by
  by_contra hno
  push_neg at hno
  have hnone : strstrSuffix s pat = none :=
    (strstrSuffix_eq_none_iff s pat).mpr (fun i => by
      cases hv : leadsWith pat (s.drop i) with
      | false => rfl
      | true => exact absurd hv (hno i))
  rw [hnone] at h
  exact Option.noConfusion h

theorem validateChecksum_of_leadsWith {message : List Char} {i : Nat}
    (h : leadsWith keyCHK (message.drop i) = true) :
    validateChecksum message = true := by
  unfold validateChecksum
  cases hx : strstrSuffix message keyCHK with
  | none => exact absurd hx (strstrSuffix_isSome_of_leadsWith h)
  | some r => rfl

theorem parseMessage_of_no_chk {message : List Char} (m : SystemMetrics)
    (h : validateChecksum message = false) :
    parseMessage m message = (some DecodeError.MissingChecksum, m) := by
  unfold parseMessage
  rw [h]
  simp

theorem parseMessage_snd_preserves (m : SystemMetrics) (message : List Char) :
    (parseMessage m message).2.last_update = m.last_update ∧
    (parseMessage m message).2.connected = m.connected ∧
    (parseMessage m message).2.power_save_mode = m.power_save_mode ∧
    (parseMessage m message).2.disconnect_time = m.disconnect_time := by
  cases hchk : validateChecksum message with
  | false => rw [parseMessage_of_no_chk m hchk]; exact ⟨rfl, rfl, rfl, rfl⟩
  | true =>
      cases hc : strstrSuffix message keyCPU with
      | none =>
          unfold parseMessage
          rw [hchk, hc]
          simp [resetOptionals]
      | some r1 =>
          cases hr : strstrSuffix message keyRAM with
          | none =>
              unfold parseMessage
              rw [hchk, hc, hr]
              simp [resetOptionals]
          | some r2 =>
              cases ht : strstrSuffix message keyTEMP with
              | none =>
                  unfold parseMessage
                  rw [hchk, hc, hr, ht]
                  simp [resetOptionals]
              | some r3 =>
                  rw [parseMessage_success_shape m message r1 r2 r3 hchk hc hr ht]
                  split <;> simp [decodedRecord, applyOptionals_spec, resetOptionals]

theorem managePowerSaving_fst_connected (now : Nat) (m : SystemMetrics) :
    (managePowerSaving now m).1.connected = m.connected := by
  unfold managePowerSaving enterPowerSaveMode exitPowerSaveMode
  repeat' split
  all_goals rfl

/-! ### Claims -/

/-- C1 (counterexample): decode failure is NOT atomic.  After decoding the
spec scenario line `"CPU:45.2,RAM:67.8,TEMP:58.5,FAN:1500,CHK:171"`, a
second line missing `RAM` is rejected, yet the record has changed: the
optional `fan_rpm` was reset from 1500 to 0 and `cpu_usage` was already
overwritten with the new line's value 50 before the rejection. -/
theorem c1_decode_atomicity_counterexample :
    (parseMessage initMetrics msgScenario1).1 = none ∧
    (parseMessage initMetrics msgScenario1).2.fan_rpm = 1500 ∧
    (parseMessage (parseMessage initMetrics msgScenario1).2 msgMissingRAM).1 =
      some (DecodeError.MissingField "RAM") ∧
    (parseMessage (parseMessage initMetrics msgScenario1).2 msgMissingRAM).2.fan_rpm = 0 ∧
    (parseMessage (parseMessage initMetrics msgScenario1).2 msgMissingRAM).2.cpu_usage = 50 ∧
    (parseMessage (parseMessage initMetrics msgScenario1).2 msgMissingRAM).2 ≠
      (parseMessage initMetrics msgScenario1).2 := by
  decide

/-- C1 (amended): decode failure leaves the record unchanged only for
missing-checksum rejections; when the checksum token is absent the
`MetricsRecord` is returned untouched. (For missing-required-field and
out-of-range rejections the record may be partially updated, as the
counterexample shows.) -/
theorem c1_decode_atomicity_amended (m : SystemMetrics) (message : List Char)
    (h : validateChecksum message = false) :
    parseMessage m message = (some DecodeError.MissingChecksum, m) :=
  parseMessage_of_no_chk m h

/-- C1 witness: the amended theorem applied to a concrete line without a
checksum token. -/
theorem c1_decode_atomicity_witness :
    validateChecksum msgNoChk = false ∧
    parseMessage initMetrics msgNoChk = (some DecodeError.MissingChecksum, initMetrics) :=
  ⟨by decide, c1_decode_atomicity_amended initMetrics msgNoChk (by decide)⟩

/-- C3: decode rejects with `MissingChecksum` precisely when the checksum
token `",CHK:"` is absent from the line; and any line containing the token
passes checksum validation whatever bytes (hence whatever numeric value)
follow it — no expected checksum is recomputed or compared. -/
theorem c3_checksum_policy (m : SystemMetrics) (message : List Char) :
    ((parseMessage m message).1 = some DecodeError.MissingChecksum ↔
      strstrSuffix message keyCHK = none) ∧
    (∀ a b : List Char, validateChecksum (a ++ (keyCHK ++ b)) = true) := by
  constructor
  · rw [parseMessage_fst_eq_verdict]
    unfold decodeVerdict validateChecksum
    cases hx : strstrSuffix message keyCHK with
    | none => simp
    | some r =>
        simp only [Bool.true_eq_false, if_false]
        constructor
        · intro h
          cases hc : strstrSuffix message keyCPU with
          | none => rw [hc] at h; simp at h
          | some r1 =>
              rw [hc] at h
              cases hr : strstrSuffix message keyRAM with
              | none => rw [hr] at h; simp at h
              | some r2 =>
                  rw [hr] at h
                  cases ht : strstrSuffix message keyTEMP with
                  | none => rw [ht] at h; simp at h
                  | some r3 =>
                      rw [ht] at h
                      split at h <;> simp at h
        · intro h
          exact Option.noConfusion h
  · intro a b
    have hocc : leadsWith keyCHK ((a ++ (keyCHK ++ b)).drop a.length) = true := by
      rw [List.drop_left]
      exact leadsWith_append keyCHK b
    exact validateChecksum_of_leadsWith hocc

/-- C4 (counterexample): a present `BAT:` key whose value fails to parse is
NOT treated as if the key were absent: `atoi` yields 0, so
`battery_percent` becomes 0 instead of the −1 "unavailable" default. -/
theorem c4_optional_malformed_counterexample :
    strstrSuffix msgBatBad keyBAT = some (("abc,CHK:0").data) ∧
    (parseMessage initMetrics msgBatBad).1 = none ∧
    initMetrics.battery_percent = -1 ∧
    (parseMessage initMetrics msgBatBad).2.battery_percent = 0 ∧
    ¬ (parseMessage initMetrics msgBatBad).2.battery_percent = -1 := by
  decide

/-- C4 (amended): a malformed optional value is never a reason to reject
the message — the accept/reject verdict is a function of the checksum
token and the three required fields alone — and each optional field gets
the numeric parser's result, whose failure value 0 coincides with the
"unavailable" default for every optional field except `battery_percent`
(default −1), which is set to `atoi`'s 0 on parse failure. -/
theorem c4_optional_malformed_amended (m : SystemMetrics) (message r : List Char)
    (hbat : strstrSuffix message keyBAT = some r) :
    (parseMessage m message).1 = decodeVerdict message ∧
    ((parseMessage m message).1 = none →
      (parseMessage m message).2.battery_percent = atoiInt r) := by
  refine ⟨parseMessage_fst_eq_verdict m message, ?_⟩
  intro hnone
  cases hchk : validateChecksum message with
  | false => rw [parseMessage_of_no_chk m hchk] at hnone; simp at hnone
  | true =>
      cases hc : strstrSuffix message keyCPU with
      | none => unfold parseMessage at hnone; simp [hchk, hc] at hnone
      | some r1 =>
          cases hr : strstrSuffix message keyRAM with
          | none => unfold parseMessage at hnone; simp [hchk, hc, hr] at hnone
          | some r2 =>
              cases ht : strstrSuffix message keyTEMP with
              | none => unfold parseMessage at hnone; simp [hchk, hc, hr, ht] at hnone
              | some r3 =>
                  rw [parseMessage_success_shape m message r1 r2 r3 hchk hc hr ht] at hnone ⊢
                  by_cases hbad : atof r1 < 0 ∨ atof r1 > 100 ∨
                      atof r2 < 0 ∨ atof r2 > 100 ∨ atof r3 < 0 ∨ atof r3 > 150
                  · rw [if_pos hbad] at hnone; simp at hnone
                  · rw [if_neg hbad]
                    unfold decodedRecord
                    rw [applyOptionals_spec]
                    simp [optMatchI, hbat]

/-- C4 witness: the amended theorem at the concrete malformed-`BAT` line,
where `atoi` of the unparsable value gives 0. -/
theorem c4_optional_malformed_witness :
    strstrSuffix msgBatBad keyBAT = some (("abc,CHK:0").data) ∧
    (parseMessage initMetrics msgBatBad).1 = decodeVerdict msgBatBad ∧
    (parseMessage initMetrics msgBatBad).2.battery_percent = atoiInt (("abc,CHK:0").data) := by
  have h := c4_optional_malformed_amended initMetrics msgBatBad (("abc,CHK:0").data) (by decide)
  exact ⟨by decide, h.1, h.2 (by decide)⟩

/-- C5: a message containing the checksum token and all three required
keys, whose required values pass the range checks, decodes successfully;
the record holds exactly the parsed required values, every optional key
present is populated from the message, and every optional key absent
equals its "unavailable" default (0 for the float fields and `FAN`,
−1 for `BAT`). -/
theorem c5_valid_decode (m : SystemMetrics) (message r1 r2 r3 : List Char)
    (hchk : validateChecksum message = true)
    (hc : strstrSuffix message keyCPU = some r1)
    (hr : strstrSuffix message keyRAM = some r2)
    (ht : strstrSuffix message keyTEMP = some r3)
    (hc0 : ¬ atof r1 < 0) (hc1 : ¬ atof r1 > 100)
    (hr0 : ¬ atof r2 < 0) (hr1 : ¬ atof r2 > 100)
    (ht0 : ¬ atof r3 < 0) (ht1 : ¬ atof r3 > 150) :
    (parseMessage m message).1 = none ∧
    (parseMessage m message).2.cpu_usage = atof r1 ∧
    (parseMessage m message).2.ram_usage = atof r2 ∧
    (parseMessage m message).2.temperature = atof r3 ∧
    (parseMessage m message).2.cpu_freq_ghz = optMatchF message keyFREQ 0 ∧
    (parseMessage m message).2.gpu_usage = optMatchF message keyGPU 0 ∧
    (parseMessage m message).2.ram_used_gb = optPairFst message keyRAMGB ('/') 0 ∧
    (parseMessage m message).2.ram_total_gb = optPairSnd message keyRAMGB ('/') 0 ∧
    (parseMessage m message).2.fan_rpm = optMatchI message keyFAN 0 ∧
    (parseMessage m message).2.net_download_mbps = optPairFst message keyNET (',') 0 ∧
    (parseMessage m message).2.net_upload_mbps = optPairSnd message keyNET (',') 0 ∧
    (parseMessage m message).2.battery_percent = optMatchI message keyBAT (-1) ∧
    (parseMessage m message).2.power_watts = optMatchF message keyPOWER 0 := by
  rw [parseMessage_success_shape m message r1 r2 r3 hchk hc hr ht]
  rw [if_neg (by
    simp only [not_or]
    exact ⟨hc0, hc1, hr0, hr1, ht0, ht1⟩)]
  unfold decodedRecord resetOptionals
  rw [applyOptionals_spec]
  exact ⟨rfl, rfl, rfl, rfl, rfl, rfl, rfl, rfl, rfl, rfl, rfl, rfl, rfl⟩

/-- C5 witness: the spec §8 scenario `"CPU:45.2,RAM:67.8,TEMP:58.5,CHK:171"`
decodes to `{cpu 45.2, ram 67.8, temp 58.5}` with all optional fields at
their defaults. -/
theorem c5_valid_decode_witness :
    (parseMessage initMetrics msgScenario0).1 = none ∧
    (parseMessage initMetrics msgScenario0).2.cpu_usage = 226/5 ∧
    (parseMessage initMetrics msgScenario0).2.ram_usage = 339/5 ∧
    (parseMessage initMetrics msgScenario0).2.temperature = 117/2 ∧
    (parseMessage initMetrics msgScenario0).2.fan_rpm = 0 ∧
    (parseMessage initMetrics msgScenario0).2.battery_percent = -1 ∧
    (parseMessage initMetrics msgScenario0).2.power_watts = 0 := by
  have h := c5_valid_decode initMetrics msgScenario0
    (("45.2,RAM:67.8,TEMP:58.5,CHK:171").data)
    (("67.8,TEMP:58.5,CHK:171").data)
    (("58.5,CHK:171").data)
    (by decide) (by decide) (by decide) (by decide)
    (by decide) (by decide) (by decide) (by decide) (by decide) (by decide)
  refine ⟨h.1, ?_, ?_, ?_, ?_, ?_, ?_⟩
  · rw [h.2.1]; decide
  · rw [h.2.2.1]; decide
  · rw [h.2.2.2.1]; decide
  · rw [h.2.2.2.2.2.2.2.2.1]; decide
  · rw [h.2.2.2.2.2.2.2.2.2.2.2.1]; decide
  · rw [h.2.2.2.2.2.2.2.2.2.2.2.2]; decide

/-- C10: decode checks required-key presence, not numeric validity — a line
with the checksum token whose `CPU:`, `RAM:`, `TEMP:` values all parse to 0
(as `atof` yields for non-numeric text) passes the range checks and is
accepted with the required fields set to 0. -/
theorem c10_nonnumeric_required_accepted (m : SystemMetrics) (message r1 r2 r3 : List Char)
    (hchk : validateChecksum message = true)
    (hc : strstrSuffix message keyCPU = some r1) (h1 : atof r1 = 0)
    (hr : strstrSuffix message keyRAM = some r2) (h2 : atof r2 = 0)
    (ht : strstrSuffix message keyTEMP = some r3) (h3 : atof r3 = 0) :
    (parseMessage m message).1 = none ∧
    (parseMessage m message).2.cpu_usage = 0 ∧
    (parseMessage m message).2.ram_usage = 0 ∧
    (parseMessage m message).2.temperature = 0 := by
  rw [parseMessage_success_shape m message r1 r2 r3 hchk hc hr ht]
  rw [h1, h2, h3]
  rw [if_neg (by norm_num)]
  unfold decodedRecord resetOptionals
  rw [applyOptionals_spec]
  refine ⟨rfl, ?_, ?_, ?_⟩
  · exact h1
  · exact h2
  · exact h3

/-- C10 witness: `"CPU:abc,RAM:abc,TEMP:abc,CHK:9"` is accepted with all
required fields 0. -/
theorem c10_nonnumeric_required_witness :
    (parseMessage initMetrics msgNonNumeric).1 = none ∧
    (parseMessage initMetrics msgNonNumeric).2.cpu_usage = 0 ∧
    (parseMessage initMetrics msgNonNumeric).2.ram_usage = 0 ∧
    (parseMessage initMetrics msgNonNumeric).2.temperature = 0 :=
  c10_nonnumeric_required_accepted initMetrics msgNonNumeric
    (("abc,RAM:abc,TEMP:abc,CHK:9").data)
    (("abc,TEMP:abc,CHK:9").data)
    (("abc,CHK:9").data)
    (by decide) (by decide) (by decide) (by decide) (by decide) (by decide) (by decide)

/-- C2 (counterexample): when a line overruns the buffer, the transport is
NOT guaranteed to emit no portion of it.  Feeding 127 junk bytes, one
overflowing byte, a well-formed suffix, and a newline: one overflow is
reported, but the suffix of the very same over-long line (everything after
the reset, `overLongLine.drop 128`) is emitted to the decoder. -/
theorem c2_transport_overflow_counterexample :
    (processSerial ⟨[]⟩ overLongInput).2.1 = [overLongTail] ∧
    (processSerial ⟨[]⟩ overLongInput).2.2 = 1 ∧
    overLongTail ≠ [] ∧
    overLongLine.drop 128 = overLongTail := by
  decide

/-- C2 (amended): on buffer full before a terminator, the 127 buffered
bytes and the overflowing byte are discarded (nothing is emitted in that
step), the overflow is reported, and the buffer is reset so reading
continues; however, later bytes of the same over-long line accumulate as
though a new line had begun, so a suffix of the over-long line can still
reach the decoder (see the counterexample). -/
theorem c2_transport_overflow_amended (st : TransportState) (c : Char)
    (hterm : ¬ (c = '\n' ∨ c = '\r'))
    (hfull : ¬ st.buffer.length < SERIAL_BUFFER_SIZE - 1) :
    procByte st c = (⟨[]⟩, none, true) := by
  unfold procByte
  rw [if_neg hterm, if_neg hfull]

/-- C2 witness: the amended per-byte behaviour at a full buffer of 127
bytes receiving the non-terminator byte `B`. -/
theorem c2_transport_overflow_witness :
    ¬ (('B') = '\n' ∨ ('B') = '\r') ∧
    ¬ ((List.replicate 127 'A').length < SERIAL_BUFFER_SIZE - 1) ∧
    procByte ⟨List.replicate 127 'A'⟩ ('B') = (⟨[]⟩, none, true) :=
  ⟨by decide, by decide,
   c2_transport_overflow_amended ⟨List.replicate 127 'A'⟩ ('B') (by decide) (by decide)⟩

/-- C6: the liveness monitor transitions Connected → Disconnected exactly
when connected and `now - last_update` exceeds the 5000 ms timeout, and at
that instant `disconnect_time` is set to `now`; while already disconnected
the check is a no-op, so the flag flips exactly once per disconnect
episode; and an iteration with a successful decode leaves the link
connected (no disconnect with a decode in between). -/
theorem c6_liveness_monitor (now : Nat) (m : SystemMetrics)
    (hle : m.last_update ≤ now) (hlt : now < U32) :
    (m.connected = true → DATA_TIMEOUT_MS < now - m.last_update →
      checkConnectionStatus now m = { m with connected := false, disconnect_time := now }) ∧
    (m.connected = true → ¬ DATA_TIMEOUT_MS < now - m.last_update →
      checkConnectionStatus now m = m) ∧
    (m.connected = false → checkConnectionStatus now m = m) ∧
    (∀ (s : LoopState) (line : List Char), (parseMessage s.metrics line).1 = none →
      (loopStep now (some line) s).1.metrics.connected = true) := by
  refine ⟨?_, ?_, ?_, ?_⟩
  · intro hcon htime
    unfold checkConnectionStatus
    rw [subu32_eq_sub hle hlt]
    rw [hcon]
    simp [htime]
  · intro hcon htime
    unfold checkConnectionStatus
    rw [subu32_eq_sub hle hlt]
    rw [hcon]
    simp [htime]
  · intro hcon
    unfold checkConnectionStatus
    rw [hcon]
    simp
  · intro s line hok
    have hcheck : checkConnectionStatus now
        { (parseMessage s.metrics line).2 with last_update := now, connected := true } =
        { (parseMessage s.metrics line).2 with last_update := now, connected := true } := by
      unfold checkConnectionStatus
      rw [subu32_self]
      simp [DATA_TIMEOUT_MS]
    simp only [loopStep, onSerialLine, hok]
    rw [hcheck, managePowerSaving_fst_connected]

/-- C6 witness: a connected record last updated at t=0, checked at
t=5001 ms, flips to disconnected with `disconnect_time = 5001`; a decode
in the same iteration keeps the link connected. -/
theorem c6_liveness_monitor_witness :
    checkConnectionStatus 5001 { initMetrics with connected := true } =
      { initMetrics with connected := false, disconnect_time := 5001 } ∧
    (loopStep 5001 (some msgSimple) ⟨initMetrics, 0⟩).1.metrics.connected = true := by
  have h := c6_liveness_monitor 5001 { initMetrics with connected := true }
    (by decide) (by decide)
  have h1 := h.1 rfl (by decide)
  constructor
  · rw [h1]
  · exact h.2.2.2 ⟨initMetrics, 0⟩ msgSimple (by decide)

/-- C8 (implicit): from the startup state (`connected = false`,
`disconnect_time = 0`, no message ever received), the liveness check is a
no-op (no Connected → Disconnected transition ever runs, so
`disconnect_time` is never recorded), yet the power manager enters power
save as soon as the uptime counter exceeds 10000 ms. -/
theorem c8_startup_power_save (now : Nat) (hlt : now < U32) :
    initMetrics.connected = false ∧
    initMetrics.disconnect_time = 0 ∧
    checkConnectionStatus now initMetrics = initMetrics ∧
    ((managePowerSaving now initMetrics).1.power_save_mode = true ↔
      POWER_SAVE_DELAY_MS < now) := by
  refine ⟨rfl, rfl, ?_, ?_⟩
  · unfold checkConnectionStatus initMetrics
    simp
  · unfold managePowerSaving enterPowerSaveMode
    rw [show subu32 now initMetrics.disconnect_time = now from subu32_zero hlt]
    by_cases hd : POWER_SAVE_DELAY_MS < now
    · simp [initMetrics, hd]
    · simp [initMetrics, hd]

/-- C8 witness: at 10001 ms of uptime with no message ever received, the
power manager activates power save. -/
theorem c8_startup_power_save_witness :
    (managePowerSaving 10001 initMetrics).1.power_save_mode = true :=
  (c8_startup_power_save 10001 (by decide)).2.2.2.mpr (by decide)

/-- C7: the power manager activates power save in an evaluation precisely
when the link is disconnected, `now - disconnect_time` exceeds the
10000 ms delay, and power save is not already active (so a reconnection,
which sets `connected` before this check runs, prevents entry); and when a
valid message arrives while in power save, the same loop iteration
deactivates it, issuing the backlight restore and CPU-frequency restore
requests before the display update of that iteration. -/
theorem c7_power_manager (now : Nat) (m : SystemMetrics) (s : LoopState) (line : List Char)
    (hle : m.disconnect_time ≤ now) (hlt : now < U32)
    (hok : (parseMessage s.metrics line).1 = none) :
    (((managePowerSaving now m).1.power_save_mode = true ∧ m.power_save_mode = false) ↔
      (m.connected = false ∧ POWER_SAVE_DELAY_MS < now - m.disconnect_time ∧
        m.power_save_mode = false)) ∧
    (loopStep now (some line) s).1.metrics.power_save_mode = false ∧
    (s.metrics.power_save_mode = true →
      (loopStep now (some line) s).2 =
        Effect.setBacklight NORMAL_BACKLIGHT :: Effect.setCpuFreq 160 ::
          (updateDisplay now s.lastRender).2) := by
  have hcheck : checkConnectionStatus now
      { (parseMessage s.metrics line).2 with last_update := now, connected := true } =
      { (parseMessage s.metrics line).2 with last_update := now, connected := true } := by
    unfold checkConnectionStatus
    rw [subu32_self]
    simp [DATA_TIMEOUT_MS]
  refine ⟨?_, ?_, ?_⟩
  · unfold managePowerSaving enterPowerSaveMode exitPowerSaveMode
    rw [subu32_eq_sub hle hlt]
    split_ifs <;> simp_all
  · simp only [loopStep, onSerialLine, hok]
    rw [hcheck]
    unfold managePowerSaving exitPowerSaveMode
    by_cases hps : (parseMessage s.metrics line).2.power_save_mode
    · simp [hps]
    · simp [hps]
  · intro hps
    have hps' : (parseMessage s.metrics line).2.power_save_mode = true := by
      rw [(parseMessage_snd_preserves s.metrics line).2.2.1]
      exact hps
    simp only [loopStep, onSerialLine, hok]
    rw [hcheck]
    unfold managePowerSaving exitPowerSaveMode
    simp [hps']

/-- C7 witness: disconnected since t=5000 with power save off, evaluated at
t=20000, activates power save; and a loop iteration at t=20000 that decodes
a valid line while in power save clears it and issues backlight 5 and
160 MHz restore requests before the display update. -/
theorem c7_power_manager_witness :
    ({ initMetrics with disconnect_time := 5000 } : SystemMetrics).power_save_mode = false ∧
    (managePowerSaving 20000 { initMetrics with disconnect_time := 5000 }).1.power_save_mode = true ∧
    (loopStep 20000 (some msgSimple)
        ⟨{ initMetrics with power_save_mode := true }, 0⟩).1.metrics.power_save_mode = false ∧
    (loopStep 20000 (some msgSimple) ⟨{ initMetrics with power_save_mode := true }, 0⟩).2 =
      [Effect.setBacklight NORMAL_BACKLIGHT, Effect.setCpuFreq 160, Effect.display] := by
  have h := c7_power_manager 20000 { initMetrics with disconnect_time := 5000 }
    ⟨{ initMetrics with power_save_mode := true }, 0⟩ msgSimple
    (by decide) (by decide) (by decide)
  refine ⟨rfl, (h.1.mpr ⟨rfl, by decide, rfl⟩).1, h.2.1, ?_⟩
  rw [h.2.2 rfl]
  decide

/-- C9 (implicit): the checksum token is recognized only when preceded by a
comma.  A line whose only `CHK:` occurrence is at the very start (so no
occurrence after position 0) is rejected as missing its checksum, while a
`,CHK:` occurrence at any position satisfies the checksum-presence check. -/
theorem c9_checksum_token_comma (m : SystemMetrics) (message : List Char) :
    (leadsWith (("CHK:").data) message = true →
      strstrSuffix (message.drop 1) (("CHK:").data) = none →
      (parseMessage m message).1 = some DecodeError.MissingChecksum) ∧
    (∀ i, leadsWith keyCHK (message.drop i) = true → validateChecksum message = true) := by
  constructor
  · intro hstart htail
    have hnone : strstrSuffix message keyCHK = none := by
      cases hx : strstrSuffix message keyCHK with
      | none => rfl
      | some r =>
          obtain ⟨i, hi⟩ := strstrSuffix_some_exists hx
          have hi' : leadsWith ((',') :: ("CHK:").data) (message.drop i) = true := hi
          obtain ⟨t, hteq, hlead⟩ := leadsWith_cons_elim hi'
          have ht' : t = message.drop (i + 1) := by
            have hdd : (message.drop i).drop 1 = message.drop (i + 1) := by
              rw [List.drop_drop]
            rw [hteq] at hdd
            simpa using hdd
          have hocc : leadsWith (("CHK:").data) ((message.drop 1).drop i) = true := by
            rw [List.drop_drop]
            rw [show i + 1 = 1 + i from Nat.add_comm i 1] at ht'
            rw [← ht']
            exact hlead
          exact absurd htail (strstrSuffix_isSome_of_leadsWith hocc)
    have hv : validateChecksum message = false := by
      unfold validateChecksum
      rw [hnone]
    rw [parseMessage_of_no_chk m hv]
  · intro i h
    exact validateChecksum_of_leadsWith h

/-- C9 witness: `"CHK:171,CPU:1,RAM:1,TEMP:1"` (checksum key at the start,
not comma-preceded) is rejected with `MissingChecksum`, while
`"CPU:1,CHK:5,RAM:1,TEMP:1"` (a `,CHK:` in the middle) passes the
checksum-presence check. -/
theorem c9_checksum_token_comma_witness :
    (parseMessage initMetrics msgChkAtStart).1 = some DecodeError.MissingChecksum ∧
    validateChecksum msgChkMiddle = true :=
  ⟨(c9_checksum_token_comma initMetrics msgChkAtStart).1 (by decide) (by decide),
   (c9_checksum_token_comma initMetrics msgChkMiddle).2 5 (by decide)⟩
